import Mathlib

/-!
Verification of the FinSightAI backend against its specification.

The development shallowly embeds the two subsystems the claims are about:

* the Gemini response-extraction pipeline of
  `src/backend/services/gemini_processor.py`
  (`process_balance_sheet_pdf`, `_extract_json_from_response`,
  `_validate_parsed_data`, `_is_valid_line_item`), together with the
  pydantic models of `src/backend/models/schemas.py` that the pipeline
  constructs; and
* the bearer-token guard of `src/backend/auth/jwt_guard.py`.

Python strings are embedded as `List Char` (wrapped in `String` at the
API boundary), JSON values as the inductive type `JVal`, and the
behaviour of the external libraries the source calls (`json.loads`,
`float`, pydantic validation, PyJWT's `jwt.decode`) is modelled from
their documented semantics.  Numbers are carried exactly as
`mantissa × 10 ^ exponent` pairs, so no floating-point rounding enters
the model; none of the verified claims depends on rounding.
-/

namespace FinSight

/-! ## Characters and whitespace

`isPyWs` is the whitespace set used both by `str.strip()` (modelled on
its ASCII part: the source strings at issue are model output around
JSON) and by `json.loads` (whose grammar whitespace is exactly
space, tab, line feed and carriage return). -/

def isPyWs (c : Char) : Bool :=
  c = ' ' || c = '\t' || c = '\n' || c = '\r'

/-- Left part of `str.strip()`: drop leading whitespace. -/
def trimLeft (l : List Char) : List Char := l.dropWhile isPyWs

/-- Right part of `str.strip()`: drop trailing whitespace. -/
def trimRight (l : List Char) : List Char := (l.reverse.dropWhile isPyWs).reverse

/-- Python's `str.strip()` on the embedded character list. -/
def pyStrip (l : List Char) : List Char := trimRight (trimLeft l)

/-- Skipping inter-token whitespace inside the JSON grammar. -/
def skipWs (l : List Char) : List Char := l.dropWhile isPyWs

/-- Python's `str.find(c)`: index of the first occurrence, if any. -/
def findChar : List Char → Char → Option Nat
  | [], _ => none
  | x :: xs, c => if x = c then some 0 else (findChar xs c).map (· + 1)

/-- Python's `str.rfind(c)`: index of the last occurrence, if any. -/
def rfindChar (cs : List Char) (c : Char) : Option Nat :=
  (findChar cs.reverse c).map (fun i => cs.length - 1 - i)

/-- Substring containment, Python's `needle in hay` on strings. -/
def hasSubstr (hay needle : List Char) : Bool :=
  if hay.take needle.length = needle then true
  else
    match hay with
    | [] => false
    | _ :: rest => hasSubstr rest needle

/-! ## JSON values

`JVal` embeds the values `json.loads` can return.  A number is kept
exactly as `m × 10 ^ e`; `nan` and `inf` embed the IEEE specials that
Python's `json.loads` admits through the literals `NaN`, `Infinity` and
`-Infinity`.  Object keys follow `dict` semantics: a repeated key keeps
the first position and the last value. -/

inductive JVal where
  | null
  | bool (b : Bool)
  | num (m : Int) (e : Int)
  | nan
  | inf (neg : Bool)
  | str (s : String)
  | arr (xs : List JVal)
  | obj (kvs : List (String × JVal))

/-- Key lookup in an embedded `dict`. -/
def jlookup : List (String × JVal) → String → Option JVal
  | [], _ => none
  | (k', v) :: rest, k => if k' = k then some v else jlookup rest k

/-- Remove every binding of a key. -/
def eraseKey (k : String) (kvs : List (String × JVal)) : List (String × JVal) :=
  kvs.filter (fun p => !(p.1 = k))

/-- Prepend a binding with `dict` semantics relative to later members:
a later binding of the same key wins on value while the earlier
occurrence keeps the position. -/
def consKV (k : String) (v : JVal) (kvs : List (String × JVal)) :
    List (String × JVal) :=
  match jlookup kvs k with
  | some v' => (k, v') :: eraseKey k kvs
  | none => (k, v) :: kvs

/-- Python truthiness of an embedded JSON value, as tested by
`if not parsed_json:`. -/
def pyTruthy : JVal → Bool
  | .null => false
  | .bool b => b
  | .num m _ => decide (m ≠ 0)
  | .nan => true
  | .inf _ => true
  | .str s => !(s.data.isEmpty)
  | .arr xs => !xs.isEmpty
  | .obj kvs => !kvs.isEmpty

/-- Whether the value is an embedded `dict`. -/
def isObjVal : JVal → Bool
  | .obj _ => true
  | _ => false

/-! ## The `json.loads` model

A fuel-indexed recursive-descent parser for the grammar accepted by
Python's `json.loads` with its default arguments: RFC 8259 JSON plus
the constants `NaN`, `Infinity` and `-Infinity`, strict strings
(unescaped control characters refused).  A lone surrogate escape is
refused by the model (Python would admit it but no claim involves one,
and such a string has no embedding as Lean text). -/

/-- Match a literal keyword tail, returning the rest of the input. -/
def takeLit (lit cs : List Char) : Option (List Char) :=
  if cs.take lit.length = lit then some (cs.drop lit.length) else none

/-- Numeric value of a decimal digit character. -/
def digitVal (c : Char) : Nat := c.toNat - 48

/-- Greedily consume decimal digits, returning their value, their count
and the rest of the input. -/
def takeDigits : List Char → Nat → Nat → Nat × Nat × List Char
  | c :: rest, acc, n =>
    if c.isDigit then takeDigits rest (acc * 10 + digitVal c) (n + 1)
    else (acc, n, c :: rest)
  | [], acc, n => (acc, n, [])

/-- Hexadecimal value of a digit of a `\u` escape. -/
def hexVal : Char → Option Nat :=
  fun c =>
    if c.isDigit then some (c.toNat - 48)
    else if 'a' ≤ c && c ≤ 'f' then some (c.toNat - 87)
    else if 'A' ≤ c && c ≤ 'F' then some (c.toNat - 55)
    else none

/-- Read exactly four hexadecimal digits. -/
def hex4 : List Char → Option (Nat × List Char)
  | a :: b :: c :: d :: rest =>
    match hexVal a, hexVal b, hexVal c, hexVal d with
    | some x, some y, some z, some w =>
      some (((x * 16 + y) * 16 + z) * 16 + w, rest)
    | _, _, _, _ => none
  | _ => none

/-- Parse the body of a JSON string, the opening quote already
consumed; returns the decoded characters and the input after the
closing quote. -/
def parseStrChars : Nat → List Char → Option (List Char × List Char)
  | 0, _ => none
  | _ + 1, [] => none
  | fuel + 1, c :: rest =>
    if c = '"' then some ([], rest)
    else if c = '\\' then
      match rest with
      | e :: rest2 =>
        if e = '"' || e = '\\' || e = '/' then
          (parseStrChars fuel rest2).map (fun p => (e :: p.1, p.2))
        else if e = 'b' then
          (parseStrChars fuel rest2).map (fun p => ('\x08' :: p.1, p.2))
        else if e = 'f' then
          (parseStrChars fuel rest2).map (fun p => ('\x0c' :: p.1, p.2))
        else if e = 'n' then
          (parseStrChars fuel rest2).map (fun p => ('\n' :: p.1, p.2))
        else if e = 'r' then
          (parseStrChars fuel rest2).map (fun p => ('\r' :: p.1, p.2))
        else if e = 't' then
          (parseStrChars fuel rest2).map (fun p => ('\t' :: p.1, p.2))
        else if e = 'u' then
          match hex4 rest2 with
          | some (h, rest3) =>
            if 0xD800 ≤ h ∧ h < 0xDC00 then
              match rest3 with
              | '\\' :: 'u' :: rest4 =>
                match hex4 rest4 with
                | some (h2, rest5) =>
                  if 0xDC00 ≤ h2 ∧ h2 < 0xE000 then
                    (parseStrChars fuel rest5).map
                      (fun p =>
                        (Char.ofNat
                            (0x10000 + (h - 0xD800) * 0x400 + (h2 - 0xDC00)) ::
                          p.1, p.2))
                  else none
                | none => none
              | _ => none
            else if 0xDC00 ≤ h ∧ h < 0xE000 then none
            else (parseStrChars fuel rest3).map (fun p => (Char.ofNat h :: p.1, p.2))
          | none => none
        else none
      | [] => none
    else if c.toNat < 32 then none
    else (parseStrChars fuel rest).map (fun p => (c :: p.1, p.2))

/-- Parse the body of a JSON string with enough fuel for its input. -/
def parseJString (cs : List Char) : Option (List Char × List Char) :=
  parseStrChars (cs.length + 1) cs

/-- Parse a JSON number starting at its first digit (the sign, already
consumed, is `neg`).  Leading-zero, fraction and exponent rules follow
the `json` module's number grammar; an unusable fraction or exponent
tail is left unconsumed exactly as the module's regex leaves it. -/
def parseNum (neg : Bool) (cs : List Char) : Option (JVal × List Char) :=
  match cs with
  | c :: rest =>
    if c.isDigit then
      let ipr : Nat × List Char :=
        if c = '0' then (0, rest)
        else
          let t := takeDigits (c :: rest) 0 0
          (t.1, t.2.2)
      let fpr : Nat × Nat × List Char :=
        match ipr.2 with
        | '.' :: d :: r =>
          if d.isDigit then takeDigits (d :: r) 0 0
          else (0, 0, ipr.2)
        | _ => (0, 0, ipr.2)
      let epr : Int × List Char :=
        match fpr.2.2 with
        | e :: r =>
          if e = 'e' || e = 'E' then
            match r with
            | '-' :: d :: r2 =>
              if d.isDigit then
                let t := takeDigits (d :: r2) 0 0
                (-(t.1 : Int), t.2.2)
              else ((0 : Int), fpr.2.2)
            | '+' :: d :: r2 =>
              if d.isDigit then
                let t := takeDigits (d :: r2) 0 0
                ((t.1 : Int), t.2.2)
              else ((0 : Int), fpr.2.2)
            | d :: r2 =>
              if d.isDigit then
                let t := takeDigits (d :: r2) 0 0
                ((t.1 : Int), t.2.2)
              else ((0 : Int), fpr.2.2)
            | [] => ((0 : Int), fpr.2.2)
          else ((0 : Int), fpr.2.2)
        | [] => ((0 : Int), fpr.2.2)
      let mNat : Nat := ipr.1 * 10 ^ fpr.2.1 + fpr.1
      let m : Int := if neg then -(mNat : Int) else (mNat : Int)
      some (.num m (epr.1 - (fpr.2.1 : Int)), epr.2)
    else none
  | [] => none

mutual

/-- Parse one JSON value at the head of the input. -/
def parseVal : Nat → List Char → Option (JVal × List Char)
  | 0, _ => none
  | _ + 1, [] => none
  | fuel + 1, c :: rest =>
    if c = 'n' then (takeLit "ull".data rest).map (fun r => (.null, r))
    else if c = 't' then (takeLit "rue".data rest).map (fun r => (.bool true, r))
    else if c = 'f' then (takeLit "alse".data rest).map (fun r => (.bool false, r))
    else if c = 'N' then (takeLit "aN".data rest).map (fun r => (.nan, r))
    else if c = 'I' then (takeLit "nfinity".data rest).map (fun r => (.inf false, r))
    else if c = '"' then
      (parseJString rest).map (fun p => (.str (String.mk p.1), p.2))
    else if c = '[' then
      match skipWs rest with
      | ']' :: r => some (.arr [], r)
      | r => (parseArrItems fuel r).map (fun p => (.arr p.1, p.2))
    else if c = '\x7b' then
      match skipWs rest with
      | '\x7d' :: r => some (.obj [], r)
      | r => (parseObjItems fuel r).map (fun p => (.obj p.1, p.2))
    else if c = '-' then
      if rest.take 8 = "Infinity".data then some (.inf true, rest.drop 8)
      else parseNum true rest
    else if c.isDigit then parseNum false (c :: rest)
    else none

/-- Parse the members of a non-empty array, up to and including `]`. -/
def parseArrItems : Nat → List Char → Option (List JVal × List Char)
  | 0, _ => none
  | fuel + 1, cs =>
    match parseVal fuel cs with
    | some (v, r1) =>
      match skipWs r1 with
      | ',' :: r2 => (parseArrItems fuel (skipWs r2)).map (fun p => (v :: p.1, p.2))
      | ']' :: r2 => some ([v], r2)
      | _ => none
    | none => none

/-- Parse the members of a non-empty object, up to and including the
closing brace. -/
def parseObjItems : Nat → List Char → Option (List (String × JVal) × List Char)
  | 0, _ => none
  | fuel + 1, cs =>
    match cs with
    | '"' :: r0 =>
      match parseJString r0 with
      | some (k, r1) =>
        match skipWs r1 with
        | ':' :: r2 =>
          match parseVal fuel (skipWs r2) with
          | some (v, r3) =>
            match skipWs r3 with
            | ',' :: r4 =>
              (parseObjItems fuel (skipWs r4)).map
                (fun p => (consKV (String.mk k) v p.1, p.2))
            | '\x7d' :: r4 => some ([(String.mk k, v)], r4)
            | _ => none
          | none => none
        | _ => none
      | none => none
    | _ => none

end

/-- Python's `json.loads`: after surrounding whitespace, exactly one
JSON value and nothing else. -/
def jsonLoads0 (cs : List Char) : Option JVal :=
  let t := pyStrip cs
  match parseVal (2 * t.length + 4) t with
  | some (v, r) => if r = [] then some v else none
  | none => none

/-! ## Python's `float(str)` conversion

`_is_valid_line_item` accepts a string value exactly when `float(value)`
does not raise.  The grammar of `float` on strings: surrounding
whitespace, one optional sign, then either `inf`, `infinity` or `nan`
case-insensitively, or a decimal mantissa with optional fraction and
exponent, where each digit run may contain single underscores between
digits. -/

/-- Consume the continuation of a digit run: further digits, with
single underscores allowed only between digits. -/
def digitRunCont : List Char → List Char
  | c :: rest =>
    if c.isDigit then digitRunCont rest
    else if c = '_' then
      match rest with
      | d :: r2 => if d.isDigit then digitRunCont r2 else c :: rest
      | [] => c :: rest
    else c :: rest
  | [] => []

/-- Consume a digit run (at least one digit); `none` if the input does
not start with a digit. -/
def digitRun : List Char → Option (List Char)
  | c :: rest => if c.isDigit then some (digitRunCont rest) else none
  | [] => none

/-- Accept an optional exponent part closing the string. -/
def expTail (cs : List Char) : Bool :=
  match cs with
  | [] => true
  | e :: r =>
    if e = 'e' || e = 'E' then
      let r2 := match r with
        | s :: r' => if s = '+' || s = '-' then r' else s :: r'
        | [] => []
      match digitRun r2 with
      | some rest => rest.isEmpty
      | none => false
    else false

/-- Accept a decimal mantissa (with optional fraction) followed by an
optional exponent, closing the string. -/
def mantissaTail (cs : List Char) : Bool :=
  match digitRun cs with
  | some r1 =>
    match r1 with
    | '.' :: r2 =>
      (match digitRun r2 with
       | some r3 => expTail r3
       | none => expTail r2)
    | _ => expTail r1
  | none =>
    match cs with
    | '.' :: r2 =>
      (match digitRun r2 with
       | some r3 => expTail r3
       | none => false)
    | _ => false

/-- Whether Python's `float` accepts the string without raising. -/
def pyFloatConvertible (s : String) : Bool :=
  let cs := pyStrip s.data
  let cs := match cs with
    | c :: r => if c = '+' || c = '-' then r else c :: r
    | [] => []
  let low := cs.map Char.toLower
  if low = "inf".data || low = "infinity".data || low = "nan".data then true
  else mantissaTail cs

/-! ## Data model (`src/backend/models/schemas.py`)

`GeminiParsedData` and `GeminiProcessingResult` embed the pydantic
models the pipeline constructs and returns.  The parsed document keeps
the JSON values the pipeline computed; the field validation the
pydantic constructor performs is embedded separately as the
`subsidiaryCoercible` / `lineItemCoercible` gates below. -/

/-- The `GeminiParsedData` pydantic model: entity mapping, subsidiary
entries and the retained line items. -/
structure GeminiParsedData where
  entity : List (String × JVal)
  subsidiaries : List JVal
  line_items : List JVal

/-- The `GeminiProcessingResult` pydantic model. -/
structure GeminiProcessingResult where
  success : Bool
  data : Option GeminiParsedData
  error : Option String
  raw : Option String

/-- An exception surfacing from a pipeline stage, as discriminated by
the two `except` clauses of `process_balance_sheet_pdf`:
`json.JSONDecodeError` or any other exception, each carrying `str(e)`. -/
inductive PyExc where
  | jsonDecodeError (msg : String)
  | otherError (msg : String)

/-! ## Line-item validation (`_is_valid_line_item`)

The source checks, in order: presence of the four required fields,
membership of `section` in the five allowed values, and that `value`
is an `int`/`float` instance or `float`-convertible.  On a non-`dict`
item the `field not in item` membership test itself raises `TypeError`
(and `.get` raises `AttributeError` on a `str` or `list` that passed
the membership test), so the checker is embedded as `Except Unit Bool`:
`.error ()` is an exception escaping `_is_valid_line_item`, which
`_validate_parsed_data` then catches wholesale. -/

/-- The five allowed `section` values. -/
def sectionValues : List String :=
  ["assets", "liabilities", "equity", "income", "cashflow"]

/-- Python `section in valid_sections` on a JSON value: only an equal
string compares equal to a string. -/
def sectionOk (v : JVal) : Bool :=
  match v with
  | .str s => sectionValues.contains s
  | _ => false

/-- The `isinstance(value, (int, float))`-or-`float(value)` check.
Booleans pass because `bool` is a subclass of `int`; `NaN` and the
infinities are `float` instances; a string passes when `float` accepts
it; `None`, lists and dicts make `float` raise `TypeError`. -/
def pyFloatOk : JVal → Bool
  | .num _ _ => true
  | .nan => true
  | .inf _ => true
  | .bool _ => true
  | .str s => pyFloatConvertible s
  | _ => false

/-- Python `element in list` for the required-field names: string
equality against each member. -/
def arrHasStr (xs : List JVal) (f : String) : Bool :=
  xs.any fun v =>
    match v with
    | .str s => s = f
    | _ => false

/-- The `_is_valid_line_item` check; see the section comment for the
exception behaviour on non-`dict` items.  On a `dict` the source's
sequence of early `return False` checks — the four field presences,
then the `section` membership, then the `value` conversion — is one
short-circuit conjunction. -/
def is_valid_line_item : JVal → Except Unit Bool
  | .obj kvs =>
    .ok ((jlookup kvs "subsidiary").isSome && (jlookup kvs "section").isSome &&
      (jlookup kvs "line_name").isSome && (jlookup kvs "value").isSome &&
      sectionOk ((jlookup kvs "section").getD .null) &&
      pyFloatOk ((jlookup kvs "value").getD .null))
  | .str s =>
    if hasSubstr s.data "subsidiary".data ∧ hasSubstr s.data "section".data ∧
        hasSubstr s.data "line_name".data ∧ hasSubstr s.data "value".data then
      .error ()
    else .ok false
  | .arr xs =>
    if arrHasStr xs "subsidiary" ∧ arrHasStr xs "section" ∧
        arrHasStr xs "line_name" ∧ arrHasStr xs "value" then
      .error ()
    else .ok false
  | _ => .error ()

/-- The retention condition of the specification, stated on one line
item: the four required fields are present, `section` is one of the
five enumerated values and `value` is numeric (an `int` or `float`
instance, to which Python also reckons booleans) or a string
convertible to a number; nothing but a mapping has the fields.
`is_valid_line_item` computes exactly this whenever it returns at all
(`isValidTrue_eq_spec`). -/
def retainedItemSpec : JVal → Bool
  | .obj kvs =>
    (jlookup kvs "subsidiary").isSome && (jlookup kvs "section").isSome &&
    (jlookup kvs "line_name").isSome && (jlookup kvs "value").isSome &&
    sectionOk ((jlookup kvs "section").getD .null) &&
    pyFloatOk ((jlookup kvs "value").getD .null)
  | _ => false

/-- Whether the item checker returns `True` (as opposed to returning
`False` or raising). -/
def isValidTrue (it : JVal) : Bool :=
  match is_valid_line_item it with
  | .ok true => true
  | _ => false

/-- The filtering loop of `_validate_parsed_data`: keep the items the
checker accepts, drop the ones it rejects, abort on an exception. -/
def filterLineItems : List JVal → Except Unit (List JVal)
  | [] => .ok []
  | it :: rest =>
    match is_valid_line_item it with
    | .error e => .error e
    | .ok true => (filterLineItems rest).map (fun l => it :: l)
    | .ok false => filterLineItems rest

/-! ## Pydantic field validation

The `GeminiParsedData(...)` constructor call validates its parts
against the pydantic models (`from_attributes` marks pydantic v2, lax
mode): a `GeminiSubsidiary` needs a string `name` and an optional
string `parent`; a `GeminiLineItem` needs string `subsidiary`,
`section` and `line_name` fields, a float-coercible `value` and an
optional string `currency`.  A `ValidationError` is caught by the
enclosing `except` of `_validate_parsed_data`.  Lax numeric-string
coercion is modelled with the same grammar as `float`. -/

/-- Pydantic validation of one `subsidiaries` entry. -/
def subsidiaryCoercible : JVal → Bool
  | .obj kvs =>
    (match jlookup kvs "name" with
     | some (.str _) => true
     | _ => false) &&
    (match jlookup kvs "parent" with
     | none => true
     | some (.str _) => true
     | some .null => true
     | _ => false)
  | _ => false

/-- Pydantic validation of one retained line item. -/
def lineItemCoercible : JVal → Bool
  | .obj kvs =>
    (match jlookup kvs "subsidiary" with
     | some (.str _) => true
     | _ => false) &&
    (match jlookup kvs "section" with
     | some (.str _) => true
     | _ => false) &&
    (match jlookup kvs "line_name" with
     | some (.str _) => true
     | _ => false) &&
    (match jlookup kvs "value" with
     | some v => pyFloatOk v
     | none => false) &&
    (match jlookup kvs "currency" with
     | none => true
     | some (.str _) => true
     | some .null => true
     | _ => false)
  | _ => false

/-! ## `_validate_parsed_data` -/

/-- The `_validate_parsed_data` function.  The three top-level keys
must be present, `entity` must be a `dict` and `subsidiaries` and
`line_items` lists; the line items are filtered; the parts are then
passed to the `GeminiParsedData` constructor.  On any non-`dict`
argument every Python path ends in `return None` (a failed key check,
or a `TypeError`/`AttributeError` caught by the enclosing `except`). -/
def validate_parsed_data : JVal → Option GeminiParsedData
  | .obj kvs =>
    if (jlookup kvs "entity").isSome ∧ (jlookup kvs "subsidiaries").isSome ∧
        (jlookup kvs "line_items").isSome then
      match jlookup kvs "entity", jlookup kvs "subsidiaries",
          jlookup kvs "line_items" with
      | some (.obj ekvs), some (.arr subs), some (.arr items) =>
        match filterLineItems items with
        | .error _ => none
        | .ok kept =>
          if subs.all subsidiaryCoercible ∧ kept.all lineItemCoercible then
            some ⟨ekvs, subs, kept⟩
          else none
      | _, _, _ => none
    else none
  | _ => none

/-! ## `_extract_json_from_response` -/

/-- Removal of a leading ```` ```json ```` or ```` ``` ```` fence
(`text.startswith` plus the `text[7:]` / `text[3:]` slices). -/
def removeLeadingFence (t : List Char) : List Char :=
  if t.take 7 = "```json".data then t.drop 7
  else if t.take 3 = "```".data then t.drop 3
  else t

/-- Removal of a trailing ```` ``` ```` fence (`text.endswith` plus the
`text[:-3]` slice). -/
def removeTrailingFence (t : List Char) : List Char :=
  if t.drop (t.length - 3) = "```".data then t.take (t.length - 3) else t

/-- Lines 152-163 of `_extract_json_from_response`: strip, remove the
fences, strip again. -/
def fenceStripped (cs : List Char) : List Char :=
  pyStrip (removeTrailingFence (removeLeadingFence (pyStrip cs)))

/-- The `_extract_json_from_response` function: remove any fences, try
a direct parse, and fall back to the substring between the first
`\x7b` and the last `\x7d`. -/
def extract_json_from_response (cs : List Char) : Option JVal :=
  match jsonLoads0 (fenceStripped cs) with
  | some v => some v
  | none =>
    match findChar (fenceStripped cs) '\x7b', rfindChar (fenceStripped cs) '\x7d' with
    | some s, some e =>
      jsonLoads0 (((fenceStripped cs).drop s).take (e + 1 - s))
    | _, _ => none

/-! ## `process_balance_sheet_pdf`

The orchestrator is embedded as a total function of the model-call
outcome: `.ok raw` is a response text obtained from the model, while
`.error e` is an exception raised before the text was available (the
network call or `response.text`); the two `except` clauses of the
source convert it into the corresponding failure result.  Totality of
this Lean function is the model of "no exception propagates to the
caller": every downstream stage handles its own exceptions
(`_extract_json_from_response` catches `json.JSONDecodeError`,
`_validate_parsed_data` catches everything). -/

/-- The body of the `try` block once the model text `raw_response` is
in hand: extract, test `if not parsed_json:` (Python truthiness, so a
`None` result and a falsy extracted value take the same branch),
validate, and build the result. -/
def process_text (raw_response : String) : GeminiProcessingResult :=
  match extract_json_from_response raw_response.data with
  | none =>
    ⟨false, none, some "Could not extract valid JSON from Gemini response",
      some raw_response⟩
  | some pj =>
    match pyTruthy pj with
    | false =>
      ⟨false, none, some "Could not extract valid JSON from Gemini response",
        some raw_response⟩
    | true =>
      match validate_parsed_data pj with
      | none =>
        ⟨false, none, some "Parsed data does not match expected structure",
          some raw_response⟩
      | some d => ⟨true, some d, none, some raw_response⟩

/-- The `process_balance_sheet_pdf` entry point. -/
def process_balance_sheet_pdf (response : Except PyExc String) :
    GeminiProcessingResult :=
  match response with
  | .error (.jsonDecodeError m) =>
    ⟨false, none, some ("JSON parsing error: " ++ m), none⟩
  | .error (.otherError m) =>
    ⟨false, none, some ("Processing error: " ++ m), none⟩
  | .ok raw_response => process_text raw_response

/-! ## The bearer-token guard (`src/backend/auth/jwt_guard.py`)

`JWTBearer.__call__` checks the authorization scheme, then inside one
`try` block first resolves the signing key with
`_jwk_client.get_signing_key_from_jwt(token)` and then calls
`jwt.decode(token, key, algorithms=["ES256"], audience="authenticated",
options={"require": ["exp", "iat"]})`, mapping
`jwt.ExpiredSignatureError` to 401 "Token expired" and every other
`jwt.InvalidTokenError` to 401 "Invalid token".

Key resolution matters to the error behaviour: when the token's `kid`
matches no key of the JWKS, `PyJWKClient` raises `PyJWKClientError`,
which subclasses `PyJWTError` but not `InvalidTokenError`, so neither
`except` clause catches it and the exception propagates out of the
guard uncaught (an HTTP 500 at the framework, not a 401).  The token
is abstracted into its decision-relevant parts: the header algorithm,
whether the JWKS holds a key matching the token's `kid`, whether the
signature verifies under that key, presence of the required claims,
the expiry instant and the audience.  PyJWT's `decode` refuses the
algorithm and the signature first, then the required claims, then
expiry (the one case raising `ExpiredSignatureError`), then the
audience. -/

/-- The algorithms the guard accepts. -/
def ALGS : List String := ["ES256"]

/-- The audience the guard requires. -/
def AUD : String := "authenticated"

/-- The decision-relevant parts of a presented bearer token.
`kidMatches` is whether `get_signing_key_from_jwt` finds a JWKS key
matching the token's `kid`; `sigValid` whether the signature verifies
under that key. -/
structure Token where
  alg : String
  kidMatches : Bool
  sigValid : Bool
  hasExp : Bool
  hasIat : Bool
  exp : Int
  aud : String

/-- Outcome of `jwt.decode` as discriminated by the guard's `except`
clauses. -/
inductive DecodeOutcome where
  | ok
  | expired
  | invalid

/-- Model of PyJWT's `jwt.decode` with the guard's arguments, once a
signing key has been resolved. -/
def jwtDecode (t : Token) (now : Int) : DecodeOutcome :=
  if !(ALGS.contains t.alg) then .invalid
  else if !t.sigValid then .invalid
  else if !t.hasExp || !t.hasIat then .invalid
  else if t.exp < now then .expired
  else if t.aud ≠ AUD then .invalid
  else .ok

/-- Result of the guard: the accepted token, an `HTTPException` with
its status code and detail, or an exception neither `except` clause
catches, propagating uncaught out of the guard. -/
inductive AuthOutcome where
  | accepted (t : Token)
  | httpError (code : Nat) (detail : String)
  | uncaughtError (name : String)

/-- ASCII model of Python's `str.lower()`. -/
def pyLower (s : String) : String := String.mk (s.data.map Char.toLower)

/-- The `JWTBearer.__call__` guard body, given the credential scheme,
the presented token and the current time.  Key resolution runs before
`jwt.decode`; its `PyJWKClientError` is not an `InvalidTokenError`, so
it escapes the `except` clauses. -/
def jwtGuardCall (scheme : String) (t : Token) (now : Int) : AuthOutcome :=
  if pyLower scheme ≠ "bearer" then .httpError 401 "Invalid auth scheme"
  else if !t.kidMatches then .uncaughtError "PyJWKClientError"
  else
    match jwtDecode t now with
    | .expired => .httpError 401 "Token expired"
    | .invalid => .httpError 401 "Invalid token"
    | .ok => .accepted t

/-! ## Auxiliary lemmas about stripping -/

theorem trimRight_eq_rdropWhile (l : List Char) :
    trimRight l = List.rdropWhile isPyWs l := rfl

theorem pyStrip_eq (l : List Char) :
    pyStrip l = List.rdropWhile isPyWs (l.dropWhile isPyWs) := rfl

theorem dropWhile_rdropWhile_eq_self {p : Char → Bool} {z : List Char}
    (h : z.dropWhile p = z) :
    (List.rdropWhile p z).dropWhile p = List.rdropWhile p z := by
  cases hz : List.rdropWhile p z with
  | nil => rfl
  | cons c cs =>
    obtain ⟨t, ht⟩ := List.rdropWhile_prefix p z
    rw [hz] at ht
    have hz' : z = c :: (cs ++ t) := by rw [← ht]; rfl
    have hc : ¬p c := by
      intro hc
      rw [hz', List.dropWhile_cons_of_pos hc] at h
      have hlen := congrArg List.length h
      have hle : ((cs ++ t).dropWhile p).length ≤ (cs ++ t).length :=
        (List.dropWhile_sublist p).length_le
      simp only [List.length_cons] at hlen
      omega
    exact List.dropWhile_cons_of_neg hc

theorem pyStrip_idem (l : List Char) : pyStrip (pyStrip l) = pyStrip l := by
  rw [pyStrip_eq, pyStrip_eq l]
  rw [dropWhile_rdropWhile_eq_self (List.dropWhile_idempotent isPyWs l)]
  exact List.rdropWhile_idempotent isPyWs _

theorem pyStrip_pad (x : List Char) :
    pyStrip ('\n' :: (x ++ ['\n'])) = pyStrip x := by
  rw [pyStrip_eq, pyStrip_eq x]
  rw [List.dropWhile_cons_of_pos (by decide : isPyWs '\n' = true)]
  rw [List.dropWhile_append]
  by_cases h : (x.dropWhile isPyWs).isEmpty
  · rw [if_pos h, List.isEmpty_iff.mp h]
    decide
  · rw [if_neg h]
    exact List.rdropWhile_concat_pos isPyWs _ '\n' (by decide)

theorem jsonLoads0_pyStrip (cs : List Char) :
    jsonLoads0 (pyStrip cs) = jsonLoads0 cs := by
  unfold jsonLoads0
  rw [pyStrip_idem]

theorem removeLeadingFence_json (y : List Char) :
    removeLeadingFence ("```json".data ++ y) = y := by
  unfold removeLeadingFence
  have h7 : List.take 7 ("```json".data ++ y) = "```json".data :=
    List.take_left' rfl
  rw [if_pos h7]
  exact List.drop_left' rfl

theorem removeTrailingFence_concat (w : List Char) :
    removeTrailingFence (w ++ "```".data) = w := by
  unfold removeTrailingFence
  have hlen : (w ++ "```".data).length - 3 = w.length := by
    rw [List.length_append]
    show w.length + 3 - 3 = w.length
    omega
  have hdrop : List.drop ((w ++ "```".data).length - 3) (w ++ "```".data) =
      "```".data := by
    rw [hlen]
    exact List.drop_left' rfl
  rw [if_pos hdrop, hlen]
  exact List.take_left' rfl

theorem pyStrip_fenced (s : String) :
    pyStrip ("```json\n".data ++ s.data ++ "\n```".data) =
      "```json\n".data ++ s.data ++ "\n```".data := by
  rw [pyStrip_eq]
  rw [show ("```json\n".data ++ s.data ++ "\n```".data) =
    '`' :: (("``json\n".data ++ s.data) ++ "\n```".data) from rfl]
  rw [List.dropWhile_cons_of_neg (by decide)]
  have hsplit : '`' :: (("``json\n".data ++ s.data) ++ "\n```".data) =
      ('`' :: (("``json\n".data ++ s.data) ++ "\n``".data)) ++ ['`'] := by
    simp [List.append_assoc]
  rw [hsplit, List.rdropWhile_concat_neg isPyWs _ '`' (by decide)]

theorem fenceStripped_fenced (s : String) :
    fenceStripped ("```json\n" ++ s ++ "\n```").data = pyStrip s.data := by
  have hT : ("```json\n" ++ s ++ "\n```").data =
      "```json\n".data ++ s.data ++ "\n```".data := by
    simp [String.data_append]
  unfold fenceStripped
  rw [hT, pyStrip_fenced]
  have hA : "```json\n".data ++ s.data ++ "\n```".data =
      "```json".data ++ (('\n' :: s.data) ++ "\n```".data) := by
    simp [List.append_assoc]
  rw [hA, removeLeadingFence_json]
  have hW : ('\n' :: s.data) ++ "\n```".data =
      (('\n' :: s.data) ++ ['\n']) ++ "```".data := by
    simp [List.append_assoc]
  rw [hW, removeTrailingFence_concat]
  exact pyStrip_pad s.data

theorem pyStrip_sublist (l : List Char) : List.Sublist (pyStrip l) l := by
  rw [pyStrip_eq]
  exact ((List.rdropWhile_prefix isPyWs _).sublist).trans (List.dropWhile_sublist isPyWs)

theorem removeLeadingFence_sublist (t : List Char) :
    List.Sublist (removeLeadingFence t) t := by
  unfold removeLeadingFence
  split_ifs with h1 h2
  · exact List.drop_sublist 7 t
  · exact List.drop_sublist 3 t
  · exact List.Sublist.refl t

theorem removeTrailingFence_sublist (t : List Char) :
    List.Sublist (removeTrailingFence t) t := by
  unfold removeTrailingFence
  split_ifs with h1
  · exact List.take_sublist _ t
  · exact List.Sublist.refl t

theorem fenceStripped_sublist (cs : List Char) :
    List.Sublist (fenceStripped cs) cs := by
  unfold fenceStripped
  exact ((pyStrip_sublist _).trans
    ((removeTrailingFence_sublist _).trans
      ((removeLeadingFence_sublist _).trans (pyStrip_sublist cs))))

theorem findChar_eq_none {cs : List Char} {c : Char} (h : c ∉ cs) :
    findChar cs c = none := by
  induction cs with
  | nil => rfl
  | cons x xs ih =>
    unfold findChar
    rw [if_neg (fun hx : x = c => h (hx ▸ List.mem_cons_self x xs))]
    rw [ih (fun hm => h (List.mem_cons_of_mem x hm))]
    rfl

theorem rfindChar_eq_none {cs : List Char} {c : Char} (h : c ∉ cs) :
    rfindChar cs c = none := by
  unfold rfindChar
  rw [findChar_eq_none (fun hm => h (List.mem_reverse.mp hm))]
  rfl

/-! ## Auxiliary lemmas about validation -/

theorem isValidTrue_eq_spec (it : JVal) : isValidTrue it = retainedItemSpec it := by
  have hok : ∀ b : Bool,
      (match (Except.ok b : Except Unit Bool) with
        | .ok true => true
        | _ => false) = b := by
    intro b; cases b <;> rfl
  cases it with
  | obj kvs => exact hok _
  | str s =>
    simp only [isValidTrue, is_valid_line_item, retainedItemSpec]
    split_ifs <;> rfl
  | arr xs =>
    simp only [isValidTrue, is_valid_line_item, retainedItemSpec]
    split_ifs <;> rfl
  | null => rfl
  | bool b => rfl
  | num m e => rfl
  | nan => rfl
  | inf n => rfl

theorem filterLineItems_ok {items kept : List JVal}
    (h : filterLineItems items = .ok kept) :
    kept = items.filter retainedItemSpec := by
  induction items generalizing kept with
  | nil =>
    unfold filterLineItems at h
    injection h with h'
    rw [← h']
    rfl
  | cons it rest ih =>
    unfold filterLineItems at h
    cases hv : is_valid_line_item it with
    | error e => rw [hv] at h; exact absurd h (by simp)
    | ok b =>
      rw [hv] at h
      cases b with
      | true =>
        cases hrest : filterLineItems rest with
        | error e => rw [hrest] at h; exact absurd h (by simp [Except.map])
        | ok l =>
          rw [hrest] at h
          simp only [Except.map] at h
          injection h with h'
          have hspec : retainedItemSpec it = true := by
            rw [← isValidTrue_eq_spec]
            unfold isValidTrue
            rw [hv]
          rw [← h', List.filter_cons_of_pos hspec, ih hrest]
      | false =>
        have hspec : retainedItemSpec it = false := by
          rw [← isValidTrue_eq_spec]
          unfold isValidTrue
          rw [hv]
        rw [List.filter_cons_of_neg (by simp [hspec])]
        exact ih h

theorem filterLineItems_all_false {items : List JVal}
    (h : ∀ it ∈ items, is_valid_line_item it = .ok false) :
    filterLineItems items = .ok [] := by
  induction items with
  | nil => rfl
  | cons it rest ih =>
    unfold filterLineItems
    rw [h it (List.mem_cons_self it rest)]
    exact ih (fun x hx => h x (List.mem_cons_of_mem it hx))

theorem validate_some_inv {v : JVal} {d : GeminiParsedData}
    (h : validate_parsed_data v = some d) :
    ∃ kvs ekvs subs items,
      v = .obj kvs ∧
      jlookup kvs "entity" = some (.obj ekvs) ∧
      jlookup kvs "subsidiaries" = some (.arr subs) ∧
      jlookup kvs "line_items" = some (.arr items) ∧
      filterLineItems items = .ok d.line_items ∧
      subs.all subsidiaryCoercible = true ∧
      d.line_items.all lineItemCoercible = true ∧
      d.entity = ekvs ∧ d.subsidiaries = subs := by
  cases v with
  | obj kvs =>
    simp only [validate_parsed_data] at h
    split_ifs at h with hpres
    · split at h
      next ekvs subs items he hs hi =>
        split at h
        next => exact absurd h (by simp)
        next kept hk =>
          split_ifs at h with hco
          injection h with h'
          refine ⟨kvs, ekvs, subs, items, rfl, he, hs, hi, ?_, hco.1, ?_, ?_, ?_⟩
          · rw [← h']; exact hk
          · rw [← h']; exact hco.2
          · rw [← h']
          · rw [← h']
      next _ _ _ _ => exact absurd h (by simp)
  | null => exact absurd h (by simp [validate_parsed_data])
  | bool b => exact absurd h (by simp [validate_parsed_data])
  | num m e => exact absurd h (by simp [validate_parsed_data])
  | nan => exact absurd h (by simp [validate_parsed_data])
  | inf n => exact absurd h (by simp [validate_parsed_data])
  | str t => exact absurd h (by simp [validate_parsed_data])
  | arr xs => exact absurd h (by simp [validate_parsed_data])

theorem process_text_some {t : String} {pj : JVal}
    (hext : extract_json_from_response t.data = some pj) :
    process_balance_sheet_pdf (.ok t) =
      match pyTruthy pj with
      | false =>
        ⟨false, none, some "Could not extract valid JSON from Gemini response",
          some t⟩
      | true =>
        match validate_parsed_data pj with
        | none =>
          ⟨false, none, some "Parsed data does not match expected structure",
            some t⟩
        | some d => ⟨true, some d, none, some t⟩ := by
  show process_text t = _
  unfold process_text
  rw [hext]

theorem process_ok_extract_none {t : String}
    (hext : extract_json_from_response t.data = none) :
    process_balance_sheet_pdf (.ok t) =
      ⟨false, none, some "Could not extract valid JSON from Gemini response",
        some t⟩ := by
  show process_text t = _
  unfold process_text
  rw [hext]

theorem process_ok_not_truthy {t : String} {pj : JVal}
    (hext : extract_json_from_response t.data = some pj)
    (htr : pyTruthy pj = false) :
    process_balance_sheet_pdf (.ok t) =
      ⟨false, none, some "Could not extract valid JSON from Gemini response",
        some t⟩ := by
  rw [process_text_some hext, htr]

theorem process_ok_validate_none {t : String} {pj : JVal}
    (hext : extract_json_from_response t.data = some pj)
    (htr : pyTruthy pj = true)
    (hval : validate_parsed_data pj = none) :
    process_balance_sheet_pdf (.ok t) =
      ⟨false, none, some "Parsed data does not match expected structure",
        some t⟩ := by
  rw [process_text_some hext, htr, hval]

theorem process_ok_validate_some {t : String} {pj : JVal}
    {d : GeminiParsedData}
    (hext : extract_json_from_response t.data = some pj)
    (htr : pyTruthy pj = true)
    (hval : validate_parsed_data pj = some d) :
    process_balance_sheet_pdf (.ok t) = ⟨true, some d, none, some t⟩ := by
  rw [process_text_some hext, htr, hval]

theorem process_ok_success_inv {t : String}
    (h : (process_balance_sheet_pdf (.ok t)).success = true) :
    ∃ v d, extract_json_from_response t.data = some v ∧ pyTruthy v = true ∧
      validate_parsed_data v = some d ∧
      process_balance_sheet_pdf (.ok t) = ⟨true, some d, none, some t⟩ := by
  cases hext : extract_json_from_response t.data with
  | none =>
    rw [process_ok_extract_none hext] at h
    exact Bool.noConfusion h
  | some pj =>
    cases htr : pyTruthy pj with
    | false =>
      rw [process_ok_not_truthy hext htr] at h
      exact Bool.noConfusion h
    | true =>
      cases hval : validate_parsed_data pj with
      | none =>
        rw [process_ok_validate_none hext htr hval] at h
        exact Bool.noConfusion h
      | some d =>
        exact ⟨pj, d, rfl, htr, hval, process_ok_validate_some hext htr hval⟩

theorem filter_isValidTrue_eq (items : List JVal) :
    items.filter isValidTrue = items.filter retainedItemSpec := by
  induction items with
  | nil => rfl
  | cons it rest ih =>
    rw [List.filter_cons, List.filter_cons, isValidTrue_eq_spec it, ih]

/-! ## Claim theorems -/

/-- Claim C1: whenever processing returns Success, the retained
`line_items` are exactly those items of the extracted `line_items`
sequence that have all four required fields, a `section` among the
five enumerated values and a numeric or numeric-string `value` — the
filter `retainedItemSpec`. -/
theorem claim1_retained_items (t : String) (d : GeminiParsedData)
    (kvs : List (String × JVal)) (items : List JVal)
    (hs : (process_balance_sheet_pdf (.ok t)).success = true)
    (hd : (process_balance_sheet_pdf (.ok t)).data = some d)
    (hv : extract_json_from_response t.data = some (.obj kvs))
    (hi : jlookup kvs "line_items" = some (.arr items)) :
    d.line_items = items.filter retainedItemSpec := by
  obtain ⟨v, d', hext, htr, hval, heq⟩ := process_ok_success_inv hs
  have hv' : v = .obj kvs := Option.some.inj (hext.symm.trans hv)
  subst hv'
  rw [heq] at hd
  have hdd : d' = d := Option.some.inj hd
  subst hdd
  obtain ⟨kvs₂, ekvs, subs, items₂, hveq, he, hsub, hi₂, hfil, _, _, _, _⟩ :=
    validate_some_inv hval
  have hk : kvs = kvs₂ := JVal.obj.inj hveq
  subst hk
  have hitems : items₂ = items :=
    JVal.arr.inj (Option.some.inj (hi₂.symm.trans hi))
  subst hitems
  exact filterLineItems_ok hfil

set_option maxRecDepth 100000 in
/-- Witness for C1: a document with one retained item (numeric-string
value `"1000.50"`) and one excluded item (value `"abc"`). -/
theorem claim1_retained_items_witness :
    (⟨[], [],
      [JVal.obj [("subsidiary", .str "A"), ("section", .str "assets"),
        ("line_name", .str "Cash"), ("value", .str "1000.50")]]⟩ :
          GeminiParsedData).line_items =
      ([JVal.obj [("subsidiary", .str "A"), ("section", .str "assets"),
          ("line_name", .str "Cash"), ("value", .str "1000.50")],
        JVal.obj [("subsidiary", .str "A"), ("section", .str "assets"),
          ("line_name", .str "Bad"), ("value", .str "abc")]].filter
        retainedItemSpec) :=
  claim1_retained_items
    "\x7b\"entity\":\x7b\x7d,\"subsidiaries\":[],\"line_items\":[\x7b\"subsidiary\":\"A\",\"section\":\"assets\",\"line_name\":\"Cash\",\"value\":\"1000.50\"\x7d,\x7b\"subsidiary\":\"A\",\"section\":\"assets\",\"line_name\":\"Bad\",\"value\":\"abc\"\x7d]\x7d"
    ⟨[], [],
      [JVal.obj [("subsidiary", .str "A"), ("section", .str "assets"),
        ("line_name", .str "Cash"), ("value", .str "1000.50")]]⟩
    [("entity", .obj []), ("subsidiaries", .arr []),
      ("line_items", .arr
        [JVal.obj [("subsidiary", .str "A"), ("section", .str "assets"),
          ("line_name", .str "Cash"), ("value", .str "1000.50")],
        JVal.obj [("subsidiary", .str "A"), ("section", .str "assets"),
          ("line_name", .str "Bad"), ("value", .str "abc")]])]
    [JVal.obj [("subsidiary", .str "A"), ("section", .str "assets"),
        ("line_name", .str "Cash"), ("value", .str "1000.50")],
      JVal.obj [("subsidiary", .str "A"), ("section", .str "assets"),
        ("line_name", .str "Bad"), ("value", .str "abc")]]
    rfl rfl rfl rfl

/-- Claim C2: for every string `s` that is valid JSON, JSON extraction
applied to the fenced text `"```json\n" ++ s ++ "\n```"` yields the
same object as parsing `s` directly. -/
theorem claim2_fence_round_trip (s : String) (v : JVal)
    (h : jsonLoads0 s.data = some v) :
    extract_json_from_response ("```json\n" ++ s ++ "\n```").data = some v := by
  unfold extract_json_from_response
  rw [fenceStripped_fenced, jsonLoads0_pyStrip, h]

/-- Witness for C2 at the concrete JSON text `[1, 2]`. -/
theorem claim2_fence_round_trip_witness :
    jsonLoads0 "[1, 2]".data = some (.arr [.num 1 0, .num 2 0]) ∧
    extract_json_from_response ("```json\n" ++ "[1, 2]" ++ "\n```").data =
      some (.arr [.num 1 0, .num 2 0]) :=
  ⟨rfl, claim2_fence_round_trip "[1, 2]" _ rfl⟩

/-- Claim C4: a model response that contains no brace characters and is
prose rather than JSON (the direct parse of the fence-stripped text
fails) makes `process_balance_sheet_pdf` return the
"Could not extract valid JSON" failure: extraction signals the missing
object with `none` instead of raising. -/
theorem claim4_prose_failure (t : String)
    (hb : '\x7b' ∉ t.data) (hc : '\x7d' ∉ t.data)
    (hp : jsonLoads0 (fenceStripped t.data) = none) :
    process_balance_sheet_pdf (.ok t) =
      ⟨false, none, some "Could not extract valid JSON from Gemini response",
        some t⟩ := by
  have hb' : '\x7b' ∉ fenceStripped t.data :=
    fun hm => hb ((fenceStripped_sublist t.data).subset hm)
  have hc' : '\x7d' ∉ fenceStripped t.data :=
    fun hm => hc ((fenceStripped_sublist t.data).subset hm)
  have hext : extract_json_from_response t.data = none := by
    unfold extract_json_from_response
    rw [hp, findChar_eq_none hb', rfindChar_eq_none hc']
  exact process_ok_extract_none hext

/-- Witness for C4 at a concrete refusal message. -/
theorem claim4_prose_failure_witness :
    process_balance_sheet_pdf (.ok "I am sorry, I cannot help with that.") =
      ⟨false, none, some "Could not extract valid JSON from Gemini response",
        some "I am sorry, I cannot help with that."⟩ :=
  claim4_prose_failure "I am sorry, I cannot help with that."
    (by decide) (by decide) rfl

/-- Claim C10: for every extracted object that passes validation, the
retained line items are precisely the valid subsequence of the input
`line_items` sequence: the items the checker accepts, in their original
relative order, unmodified and without duplication (a `List.filter`,
hence a sublist). -/
theorem claim10_retained_subsequence (v : JVal) (d : GeminiParsedData)
    (kvs : List (String × JVal)) (items : List JVal)
    (hval : validate_parsed_data v = some d)
    (hv : v = .obj kvs)
    (hi : jlookup kvs "line_items" = some (.arr items)) :
    d.line_items = items.filter isValidTrue ∧
      List.Sublist d.line_items items := by
  subst hv
  obtain ⟨kvs₂, ekvs, subs, items₂, hveq, he, hsub, hi₂, hfil, _, _, _, _⟩ :=
    validate_some_inv hval
  have hk : kvs = kvs₂ := JVal.obj.inj hveq
  subst hk
  have hitems : items₂ = items :=
    JVal.arr.inj (Option.some.inj (hi₂.symm.trans hi))
  rw [hitems] at hfil
  have hmain : d.line_items = items.filter isValidTrue := by
    rw [filterLineItems_ok hfil, filter_isValidTrue_eq]
  exact ⟨hmain, hmain ▸ List.filter_sublist items⟩

/-- Witness for C10: a document whose second line item is dropped and
whose first and third are retained in order. -/
theorem claim10_retained_subsequence_witness :
    (⟨[], [],
      [JVal.obj [("subsidiary", .str "A"), ("section", .str "assets"),
        ("line_name", .str "Cash"), ("value", .num 5 0)],
      JVal.obj [("subsidiary", .str "A"), ("section", .str "equity"),
        ("line_name", .str "Stock"), ("value", .num 7 0)]]⟩ :
          GeminiParsedData).line_items =
      ([JVal.obj [("subsidiary", .str "A"), ("section", .str "assets"),
          ("line_name", .str "Cash"), ("value", .num 5 0)],
        JVal.obj [("subsidiary", .str "A"), ("section", .str "nope"),
          ("line_name", .str "Mid"), ("value", .num 6 0)],
        JVal.obj [("subsidiary", .str "A"), ("section", .str "equity"),
          ("line_name", .str "Stock"), ("value", .num 7 0)]].filter
        isValidTrue) ∧
    List.Sublist
      (⟨[], [],
        [JVal.obj [("subsidiary", .str "A"), ("section", .str "assets"),
          ("line_name", .str "Cash"), ("value", .num 5 0)],
        JVal.obj [("subsidiary", .str "A"), ("section", .str "equity"),
          ("line_name", .str "Stock"), ("value", .num 7 0)]]⟩ :
            GeminiParsedData).line_items
      [JVal.obj [("subsidiary", .str "A"), ("section", .str "assets"),
          ("line_name", .str "Cash"), ("value", .num 5 0)],
        JVal.obj [("subsidiary", .str "A"), ("section", .str "nope"),
          ("line_name", .str "Mid"), ("value", .num 6 0)],
        JVal.obj [("subsidiary", .str "A"), ("section", .str "equity"),
          ("line_name", .str "Stock"), ("value", .num 7 0)]] :=
  claim10_retained_subsequence
    (.obj [("entity", .obj []), ("subsidiaries", .arr []),
      ("line_items", .arr
        [JVal.obj [("subsidiary", .str "A"), ("section", .str "assets"),
          ("line_name", .str "Cash"), ("value", .num 5 0)],
        JVal.obj [("subsidiary", .str "A"), ("section", .str "nope"),
          ("line_name", .str "Mid"), ("value", .num 6 0)],
        JVal.obj [("subsidiary", .str "A"), ("section", .str "equity"),
          ("line_name", .str "Stock"), ("value", .num 7 0)]])])
    ⟨[], [],
      [JVal.obj [("subsidiary", .str "A"), ("section", .str "assets"),
        ("line_name", .str "Cash"), ("value", .num 5 0)],
      JVal.obj [("subsidiary", .str "A"), ("section", .str "equity"),
        ("line_name", .str "Stock"), ("value", .num 7 0)]]⟩
    [("entity", .obj []), ("subsidiaries", .arr []),
      ("line_items", .arr
        [JVal.obj [("subsidiary", .str "A"), ("section", .str "assets"),
          ("line_name", .str "Cash"), ("value", .num 5 0)],
        JVal.obj [("subsidiary", .str "A"), ("section", .str "nope"),
          ("line_name", .str "Mid"), ("value", .num 6 0)],
        JVal.obj [("subsidiary", .str "A"), ("section", .str "equity"),
          ("line_name", .str "Stock"), ("value", .num 7 0)]])]
    [JVal.obj [("subsidiary", .str "A"), ("section", .str "assets"),
        ("line_name", .str "Cash"), ("value", .num 5 0)],
      JVal.obj [("subsidiary", .str "A"), ("section", .str "nope"),
        ("line_name", .str "Mid"), ("value", .num 6 0)],
      JVal.obj [("subsidiary", .str "A"), ("section", .str "equity"),
        ("line_name", .str "Stock"), ("value", .num 7 0)]]
    rfl rfl rfl

/-- Counterexample to claim C3 as stated: from the response text
consisting of the empty object a JSON object is extracted, and it
misses the `line_items` key, yet the result carries the
"Could not extract valid JSON" message rather than the
"does not match expected structure" one — the empty `dict` is falsy, so
`if not parsed_json:` takes the extraction-failure branch. -/
theorem claim3_counterexample :
    extract_json_from_response "\x7b\x7d".data = some (.obj []) ∧
    jlookup ([] : List (String × JVal)) "line_items" = none ∧
    process_balance_sheet_pdf (.ok "\x7b\x7d") =
      ⟨false, none, some "Could not extract valid JSON from Gemini response",
        some "\x7b\x7d"⟩ ∧
    (process_balance_sheet_pdf (.ok "\x7b\x7d")).error ≠
      some "Parsed data does not match expected structure" :=
  ⟨rfl, rfl, rfl, by decide⟩

/-- Claim C3 amended: for every response from which a JSON object is
extracted that is truthy (non-empty) but missing the `line_items`
top-level key, processing fails with the
"does not match expected structure" message and the raw text preserved,
regardless of the other keys. -/
theorem claim3_missing_line_items (t : String) (kvs : List (String × JVal))
    (hv : extract_json_from_response t.data = some (.obj kvs))
    (htr : pyTruthy (.obj kvs) = true)
    (hmiss : jlookup kvs "line_items" = none) :
    process_balance_sheet_pdf (.ok t) =
      ⟨false, none, some "Parsed data does not match expected structure",
        some t⟩ := by
  have hcond : ¬((jlookup kvs "entity").isSome = true ∧
      (jlookup kvs "subsidiaries").isSome = true ∧
      (jlookup kvs "line_items").isSome = true) := by
    intro hcon
    have h3 := hcon.2.2
    rw [hmiss] at h3
    exact Bool.noConfusion h3
  have hval : validate_parsed_data (.obj kvs) = none := by
    simp only [validate_parsed_data]
    rw [if_neg hcond]
  exact process_ok_validate_none hv htr hval

/-- Witness for the amended C3 at the one-key object text. -/
theorem claim3_missing_line_items_witness :
    process_balance_sheet_pdf (.ok "\x7b\"a\":1\x7d") =
      ⟨false, none, some "Parsed data does not match expected structure",
        some "\x7b\"a\":1\x7d"⟩ :=
  claim3_missing_line_items "\x7b\"a\":1\x7d" [("a", .num 1 0)] rfl rfl rfl

/-- Counterexample to claim C7 as stated: the extracted object
`\x7b"entity": \x7b\x7d, "subsidiaries": [], "line_items": [42]\x7d` has
the required top-level shape and zero line items pass per-item
validation, yet processing returns Failure, not Success: on the
non-mapping item `42` the membership test `"subsidiary" not in item`
raises `TypeError`, which `_validate_parsed_data` catches by failing
the whole document. -/
theorem claim7_counterexample :
    extract_json_from_response
        "\x7b\"entity\":\x7b\x7d,\"subsidiaries\":[],\"line_items\":[42]\x7d".data =
      some (.obj [("entity", .obj []), ("subsidiaries", .arr []),
        ("line_items", .arr [.num 42 0])]) ∧
    (∀ it ∈ [JVal.num 42 0], isValidTrue it = false) ∧
    (process_balance_sheet_pdf
        (.ok "\x7b\"entity\":\x7b\x7d,\"subsidiaries\":[],\"line_items\":[42]\x7d")).success
      = false ∧
    (process_balance_sheet_pdf
        (.ok "\x7b\"entity\":\x7b\x7d,\"subsidiaries\":[],\"line_items\":[42]\x7d")).error
      = some "Parsed data does not match expected structure" :=
  ⟨rfl, by decide, rfl, rfl⟩

/-- Claim C7 amended: for every extracted object with the required
top-level shape whose `subsidiaries` entries are all well-formed
subsidiary objects, if every line item is rejected by the per-item
check without raising (`is_valid_line_item` returns `False`), the
document still succeeds, with an empty `line_items` sequence. -/
theorem claim7_zero_items_success (t : String)
    (kvs ekvs : List (String × JVal)) (subs items : List JVal)
    (hv : extract_json_from_response t.data = some (.obj kvs))
    (he : jlookup kvs "entity" = some (.obj ekvs))
    (hs : jlookup kvs "subsidiaries" = some (.arr subs))
    (hsub : subs.all subsidiaryCoercible = true)
    (hi : jlookup kvs "line_items" = some (.arr items))
    (hall : ∀ it ∈ items, is_valid_line_item it = .ok false) :
    process_balance_sheet_pdf (.ok t) =
      ⟨true, some ⟨ekvs, subs, []⟩, none, some t⟩ := by
  have htr : pyTruthy (.obj kvs) = true := by
    cases kvs with
    | nil => exact absurd he (by simp [jlookup])
    | cons p rest => rfl
  have hval : validate_parsed_data (.obj kvs) = some ⟨ekvs, subs, []⟩ := by
    have hcond : (jlookup kvs "entity").isSome = true ∧
        (jlookup kvs "subsidiaries").isSome = true ∧
        (jlookup kvs "line_items").isSome = true := by
      rw [he, hs, hi]
      exact ⟨rfl, rfl, rfl⟩
    simp only [validate_parsed_data]
    rw [if_pos hcond, he, hs, hi]
    show (match filterLineItems items with
      | .error _ => none
      | .ok kept =>
        if subs.all subsidiaryCoercible ∧ kept.all lineItemCoercible then
          some (⟨ekvs, subs, kept⟩ : GeminiParsedData)
        else none) = some ⟨ekvs, subs, []⟩
    rw [filterLineItems_all_false hall]
    show (if subs.all subsidiaryCoercible ∧
        ([] : List JVal).all lineItemCoercible then
        some (⟨ekvs, subs, []⟩ : GeminiParsedData)
      else none) = some ⟨ekvs, subs, []⟩
    rw [if_pos ⟨hsub, rfl⟩]
  exact process_ok_validate_some hv htr hval

/-- Witness for the amended C7: one invalid (but mapping) line item,
dropped, and the document succeeds with no items. -/
theorem claim7_zero_items_success_witness :
    process_balance_sheet_pdf
        (.ok "\x7b\"entity\":\x7b\x7d,\"subsidiaries\":[\x7b\"name\":\"S\"\x7d],\"line_items\":[\x7b\"subsidiary\":\"A\"\x7d]\x7d") =
      ⟨true, some ⟨[], [.obj [("name", .str "S")]], []⟩, none,
        some "\x7b\"entity\":\x7b\x7d,\"subsidiaries\":[\x7b\"name\":\"S\"\x7d],\"line_items\":[\x7b\"subsidiary\":\"A\"\x7d]\x7d"⟩ :=
  claim7_zero_items_success
    "\x7b\"entity\":\x7b\x7d,\"subsidiaries\":[\x7b\"name\":\"S\"\x7d],\"line_items\":[\x7b\"subsidiary\":\"A\"\x7d]\x7d"
    [("entity", .obj []), ("subsidiaries", .arr [.obj [("name", .str "S")]]),
      ("line_items", .arr [.obj [("subsidiary", .str "A")]])]
    [] [.obj [("name", .str "S")]] [.obj [("subsidiary", .str "A")]]
    rfl rfl rfl rfl rfl
    (by intro it hit; rw [List.mem_singleton.mp hit]; rfl)

/-- Claim C5: an exception raised before the pipeline has the model
text is caught and converted into a Failure result with a
human-readable message — a `json.JSONDecodeError` tagged as a parsing
error, any other exception tagged as a generic processing error
carrying the exception's message.  That no exception ever propagates
to the caller is modelled by `process_balance_sheet_pdf` being a total
function into `GeminiProcessingResult` (each later stage handles its
own exceptions, as the definitions of `extract_json_from_response` and
`validate_parsed_data` embed). -/
theorem claim5_exceptions_to_failure (m : String) :
    process_balance_sheet_pdf (.error (.jsonDecodeError m)) =
      ⟨false, none, some ("JSON parsing error: " ++ m), none⟩ ∧
    process_balance_sheet_pdf (.error (.otherError m)) =
      ⟨false, none, some ("Processing error: " ++ m), none⟩ :=
  ⟨rfl, rfl⟩

theorem append_ne_empty (a m : String) (ha : a.length ≠ 0) : a ++ m ≠ "" := by
  intro hemp
  have hlen := congrArg String.length hemp
  rw [String.length_append] at hlen
  rw [show ("" : String).length = 0 from rfl] at hlen
  omega

/-- Claim C6: exactly one variant of the result is populated — on
success the data is present and the error absent, on failure the error
is a non-empty message and the data absent — and for every response
text the raw text is preserved in the result (in particular on
failure, whenever the text was available at all). -/
theorem claim6_exactly_one_variant (response : Except PyExc String) :
    ((process_balance_sheet_pdf response).success = true →
      (process_balance_sheet_pdf response).data.isSome = true ∧
      (process_balance_sheet_pdf response).error = none) ∧
    ((process_balance_sheet_pdf response).success = false →
      (process_balance_sheet_pdf response).data = none ∧
      ∃ msg, (process_balance_sheet_pdf response).error = some msg ∧
        msg ≠ "") ∧
    (∀ t : String, response = .ok t →
      (process_balance_sheet_pdf response).raw = some t) := by
  cases response with
  | error e =>
    cases e with
    | jsonDecodeError m =>
      refine ⟨fun h => Bool.noConfusion h,
        fun _ => ⟨rfl, "JSON parsing error: " ++ m, rfl, ?_⟩,
        fun t ht => Except.noConfusion ht⟩
      exact append_ne_empty _ m (by decide)
    | otherError m =>
      refine ⟨fun h => Bool.noConfusion h,
        fun _ => ⟨rfl, "Processing error: " ++ m, rfl, ?_⟩,
        fun t ht => Except.noConfusion ht⟩
      exact append_ne_empty _ m (by decide)
  | ok t =>
    cases hext : extract_json_from_response t.data with
    | none =>
      rw [process_ok_extract_none hext]
      exact ⟨fun h => Bool.noConfusion h,
        fun _ => ⟨rfl, "Could not extract valid JSON from Gemini response",
          rfl, by decide⟩,
        fun t' ht' => by cases Except.ok.inj ht'; rfl⟩
    | some pj =>
      cases htr : pyTruthy pj with
      | false =>
        rw [process_ok_not_truthy hext htr]
        exact ⟨fun h => Bool.noConfusion h,
          fun _ => ⟨rfl, "Could not extract valid JSON from Gemini response",
            rfl, by decide⟩,
          fun t' ht' => by cases Except.ok.inj ht'; rfl⟩
      | true =>
        cases hval : validate_parsed_data pj with
        | none =>
          rw [process_ok_validate_none hext htr hval]
          exact ⟨fun h => Bool.noConfusion h,
            fun _ => ⟨rfl, "Parsed data does not match expected structure",
              rfl, by decide⟩,
            fun t' ht' => by cases Except.ok.inj ht'; rfl⟩
        | some d =>
          rw [process_ok_validate_some hext htr hval]
          exact ⟨fun _ => ⟨rfl, rfl⟩, fun h => Bool.noConfusion h,
            fun t' ht' => by cases Except.ok.inj ht'; rfl⟩

/-- Witness for C6 on a failing invocation. -/
theorem claim6_exactly_one_variant_witness :
    (process_balance_sheet_pdf (.error (.otherError "boom"))).data = none ∧
    ∃ msg,
      (process_balance_sheet_pdf (.error (.otherError "boom"))).error =
        some msg ∧ msg ≠ "" :=
  (claim6_exactly_one_variant (.error (.otherError "boom"))).2.1 rfl

set_option maxRecDepth 40000 in
/-- Claim C8: the end-to-end scenario — the Acme document wrapped in a
```` ```json ```` fence — returns Success with exactly one retained
line item whose `value` is 100 and whose `section` is "assets". -/
theorem claim8_end_to_end :
    process_balance_sheet_pdf
      (.ok "```json\n\x7b\"entity\":\x7b\"name\":\"Acme\"\x7d,\"subsidiaries\":[],\"line_items\":[\x7b\"subsidiary\":\"Acme\",\"section\":\"assets\",\"line_name\":\"Cash\",\"value\":100\x7d]\x7d\n```") =
    ⟨true,
      some ⟨[("name", .str "Acme")], [],
        [.obj [("subsidiary", .str "Acme"), ("section", .str "assets"),
          ("line_name", .str "Cash"), ("value", .num 100 0)]]⟩,
      none,
      some "```json\n\x7b\"entity\":\x7b\"name\":\"Acme\"\x7d,\"subsidiaries\":[],\"line_items\":[\x7b\"subsidiary\":\"Acme\",\"section\":\"assets\",\"line_name\":\"Cash\",\"value\":100\x7d]\x7d\n```"⟩ := rfl

/-- Counterexample to claim C9 as stated: a bearer token actually
signed with RS256 by a key outside the ES256-only JWKS has a `kid`
matching no JWKS key, so `get_signing_key_from_jwt` raises
`PyJWKClientError` — not an `InvalidTokenError` — and the exception
propagates out of the guard uncaught instead of drawing
401 "Invalid token". -/
theorem claim9_counterexample :
    jwtGuardCall "Bearer"
        ⟨"RS256", false, true, true, true, 100, "authenticated"⟩ 0 =
      .uncaughtError "PyJWKClientError" ∧
    jwtGuardCall "Bearer"
        ⟨"RS256", false, true, true, true, 100, "authenticated"⟩ 0 ≠
      .httpError 401 "Invalid token" :=
  ⟨rfl, fun h => AuthOutcome.noConfusion h⟩

/-- Claim C9 amended: for every bearer token whose signing key resolves
from the JWKS (its `kid` matches a key), a token whose verification
fails because its `exp` claim is in the past draws 401 "Token expired",
and a token that is otherwise invalid — including one whose header
names the unsupported algorithm RS256 when only ES256 is accepted —
draws 401 "Invalid token".  When the `kid` matches no JWKS key the
`PyJWKClientError` escapes the guard uncaught. -/
theorem claim9_jwt_guard (tok : Token) (now : Int) :
    (tok.kidMatches = true → tok.alg = "ES256" → tok.sigValid = true →
      tok.hasExp = true → tok.hasIat = true → tok.aud = AUD →
      tok.exp < now →
      jwtGuardCall "Bearer" tok now = .httpError 401 "Token expired") ∧
    (tok.kidMatches = true → tok.alg = "RS256" →
      jwtGuardCall "Bearer" tok now = .httpError 401 "Invalid token") := by
  constructor
  · intro hk h1 h2 h3 h4 h5 h6
    unfold jwtGuardCall
    rw [if_neg (by decide : ¬(pyLower "Bearer" ≠ "bearer")), hk]
    rw [if_neg (by decide : ¬((!true) = true))]
    have hdec : jwtDecode tok now = .expired := by
      unfold jwtDecode
      rw [h1, h2, h3, h4]
      rw [if_neg (by decide : ¬((!ALGS.contains "ES256") = true))]
      rw [if_neg (by decide : ¬((!true) = true))]
      rw [if_neg (by decide : ¬((!true || !true) = true))]
      rw [if_pos h6]
    rw [hdec]
  · intro hk h1
    unfold jwtGuardCall
    rw [if_neg (by decide : ¬(pyLower "Bearer" ≠ "bearer")), hk]
    rw [if_neg (by decide : ¬((!true) = true))]
    have hdec : jwtDecode tok now = .invalid := by
      unfold jwtDecode
      rw [h1]
      rw [if_pos (by decide : (!ALGS.contains "RS256") = true)]
    rw [hdec]

/-- Witness for the amended C9: an expired but otherwise valid token,
and an RS256-header token whose `kid` matches a JWKS key. -/
theorem claim9_jwt_guard_witness :
    jwtGuardCall "Bearer"
        ⟨"ES256", true, true, true, true, 100, "authenticated"⟩ 200 =
      .httpError 401 "Token expired" ∧
    jwtGuardCall "Bearer"
        ⟨"RS256", true, true, true, true, 100, "authenticated"⟩ 0 =
      .httpError 401 "Invalid token" :=
  ⟨(claim9_jwt_guard ⟨"ES256", true, true, true, true, 100, "authenticated"⟩
      200).1 rfl rfl rfl rfl rfl rfl (by decide),
    (claim9_jwt_guard ⟨"RS256", true, true, true, true, 100, "authenticated"⟩
      0).2 rfl rfl⟩

end FinSight

